import Mathlib

/-!
Verification development for the `tiny_racecar_ndt` repository
(`ndtpso_slam/src/ndtpso_slam_node.cpp`), a ROS node performing NDT-PSO
scan matching.  The node's own logic (the globals, the `scan_mathcher`
callback, `main`'s set-up and publish loop) is embedded from the source.
The `NDTFrame` / `NDTCell` implementation lives in headers and sources
that are not part of this repository snapshot, so those operations are
modelled from the specification (each such definition says so in its doc
comment).  Machine `double`s are modelled as rationals; the quaternion
produced by `tf::Quaternion::setRPY(0, 0, yaw)` involves transcendental
functions of `yaw`, so it is abstracted as an uninterpreted parameter
`mkQuat : ℚ → Quat` threaded through the node's step function.
-/

/-- A planar pose `(x, y, θ)`, the node's `Eigen::Vector3d` pose values. -/
structure Pose where
  x : ℚ
  y : ℚ
  th : ℚ
deriving DecidableEq, Repr

/-- The zero pose `Vector3d::Zero()`. -/
def Pose.zero : Pose := ⟨0, 0, 0⟩

/-- A quaternion message value (fields as stored in
`geometry_msgs/Quaternion`). -/
structure Quat where
  qx : ℚ
  qy : ℚ
  qz : ℚ
  qw : ℚ
deriving DecidableEq, Repr

/-- The `geometry_msgs::PoseStamped` message held in the global
`current_pub_pose`: header stamp and frame id, position, orientation. -/
structure PoseMsg where
  stamp : ℚ
  frame_id : String
  px : ℚ
  py : ℚ
  pz : ℚ
  ori : Quat
deriving DecidableEq, Repr

/-- A C++ static `geometry_msgs::PoseStamped` is value-initialized:
every numeric field is `0` and the frame id is the empty string. -/
def defaultPoseMsg : PoseMsg := ⟨0, "", 0, 0, 0, ⟨0, 0, 0, 0⟩⟩

/-- One `sensor_msgs::LaserScan` as consumed by the callback: the range
array, `angle_min`, `angle_increment`, `range_max` and the header stamp. -/
structure Scan where
  ranges : List ℚ
  angleMin : ℚ
  angleInc : ℚ
  rangeMax : ℚ
  stamp : ℚ
deriving DecidableEq, Repr

/-- Modelled from the spec: an NDT Frame owns a grid of distribution
cells of fixed extent (`size × size` meters, cell side `cell_side`), an
origin pose, and a reference flag (`ndtframe.h` is not under `src/`).
The constructor arguments of `NDTFrame(pose, width, height, cell_side,
is_ref)` are kept as fields.  The cell grid itself is represented by the
exact data that feeds it: the filtered `(range, angle)` samples loaded
into the frame (`points`), the sequence of fusion events
`(pose, points of the fused frame)` in the order they were applied
(`fused`), and the appended trajectory records `(timestamp, pose)`
(`trajectory`); bucketing the transformed points into cells involves
trigonometric functions and is not needed by any claim about the node.
`trans` is the sensor-mounting transform set by `setTrans`, zero unless
set. -/
structure NDTFrame where
  pose : Pose
  width : ℕ
  height : ℕ
  cellSide : ℚ
  isRef : Bool
  trans : Pose
  points : List (ℚ × ℚ)
  fused : List (Pose × List (ℚ × ℚ))
  trajectory : List (ℚ × Pose)
deriving DecidableEq, Repr

namespace NDTFrame

/-- Modelled from the spec: the `NDTFrame` constructor — a freshly built
frame has empty cells, no fusion history, no trajectory, and no mounting
transform. -/
def init (pose : Pose) (width height : ℕ) (cellSide : ℚ) (isRef : Bool) :
    NDTFrame :=
  ⟨pose, width, height, cellSide, isRef, Pose.zero, [], [], []⟩

/-- Modelled from the spec: `setTrans` (spec name `setOrigin`) records
the one-time initialization offset applied before any insertion. -/
def setTrans (f : NDTFrame) (t : Pose) : NDTFrame := { f with trans := t }

/-- Modelled from the spec: `loadLaser` converts the range array to
points, discarding samples that are non-finite, `≤ 0` or `≥ range_max`
(over `ℚ` every value is finite), and inserts the rest; the `i`-th
usable sample has angle `angle_min + i * angle_increment`.  The filtered
`(range, angle)` list is retained as the frame's point set. -/
def loadLaser (f : NDTFrame) (ranges : List ℚ) (angleMin angleInc rangeMax : ℚ) :
    NDTFrame :=
  { f with points := f.points ++
      ((ranges.enum.filter fun s => 0 < s.2 ∧ s.2 < rangeMax).map
        fun s => (s.2, angleMin + (s.1 : ℚ) * angleInc)) }

/-- Modelled from the spec: `update` (spec name `fuse`) applies `pose`
to every point of `other` and inserts each into this frame's cells; the
fusion event `(pose, other.points)` is recorded in order. -/
def update (f : NDTFrame) (pose : Pose) (other : NDTFrame) : NDTFrame :=
  { f with fused := f.fused ++ [(pose, other.points)] }

/-- Modelled from the spec: `addPose` (spec name `appendTrajectory`)
appends a trajectory record in arrival order. -/
def addPose (f : NDTFrame) (stamp : ℚ) (pose : Pose) : NDTFrame :=
  { f with trajectory := f.trajectory ++ [(stamp, pose)] }

end NDTFrame

/-- The node parameters read in `main` that the alignment cycle uses:
`frame_size` (default 100), `cell_side` (default 0.5), `map_size`
(default 25), and the mounting transform looked up from tf at start-up. -/
structure Params where
  frameSize : ℕ
  cellSide : ℚ
  mapSize : ℕ
  initialTrans : Pose
deriving DecidableEq, Repr

/-- The default parameter values of the node
(`DEFAULT_FRAME_SIZE_M = 100`, `DEFAULT_CELL_SIZE_M = 0.5`,
`DEFAULT_OUTPUT_MAP_SIZE_M = 25`), with a zero mounting transform. -/
def defaultParams : Params := ⟨100, 1/2, 25, Pose.zero⟩

/-- The node's global mutable state: `first_iteration`, the static
`iter_num` counter inside `scan_mathcher`, `number_of_iters`, the pose
globals, the three `NDTFrame` globals and the published pose message. -/
structure NodeState where
  first_iteration : Bool
  iter_num : ℕ
  number_of_iters : ℕ
  previous_pose : Pose
  current_pose : Pose
  initial_pose : Pose
  current_frame : NDTFrame
  ref_frame : NDTFrame
  global_map : NDTFrame
  current_pub_pose : PoseMsg
deriving DecidableEq, Repr

/-- The set-up performed by `main` (lines 271–314 of the node): build
`ref_frame` with the configured cell side and reference flag, build
`global_map` with extent `map_size` and cell side `map_size`, build the
first `current_frame` with the configured cell side, apply the mounting
transform to it via `setTrans`, and zero all pose globals;
`current_pub_pose` is a value-initialized static. -/
def mainInit (p : Params) : NodeState where
  first_iteration := true
  iter_num := 0
  number_of_iters := 0
  previous_pose := Pose.zero
  current_pose := Pose.zero
  initial_pose := Pose.zero
  current_frame :=
    (NDTFrame.init Pose.zero (p.frameSize % 65536) (p.frameSize % 65536)
      p.cellSide false).setTrans p.initialTrans
  ref_frame :=
    NDTFrame.init Pose.zero (p.frameSize % 65536) (p.frameSize % 65536)
      p.cellSide true
  global_map :=
    NDTFrame.init Pose.zero (p.mapSize % 65536) (p.mapSize % 65536)
      (p.mapSize : ℚ) false
  current_pub_pose := defaultPoseMsg

/-- `SAVE_DATA_TO_FILE_EACH_NUM_ITERS` (the node fuses the global map
only every this many cycles). -/
def saveEachNumIters : ℕ := 10

/-- The body of the `scan_mathcher` callback (lines 97–182), as one
state transition.  `alignFn` stands for `NDTFrame::align(previous_pose,
current_frame)` called on `ref_frame` (its implementation is not under
`src/`; claims about the node hold for every engine), and `mkQuat`
abstracts `tf::Quaternion::setRPY(0, 0, yaw)`.  Steps, in source order:
load the laser scan into `current_frame`; if `first_iteration` keep
`previous_pose` as `current_pose`, otherwise align; set `previous_pose`
to `current_pose`; fuse `ref_frame` with `current_frame` at
`current_pose`; if `iter_num == 0` fuse `global_map` likewise; advance
`iter_num` modulo `SAVE_DATA_TO_FILE_EACH_NUM_ITERS`; append a
trajectory record to `global_map`; write `current_pub_pose` from
`current_pose`; delete `current_frame` and reallocate it with
`NDTFrame(initial_pose, frame_size, frame_size, frame_size, false)`
(note: the fourth constructor argument — the cell side — receives
`param_frame_size`, not `param_cell_side`); bump `number_of_iters` and
clear `first_iteration`. -/
def scan_mathcher (alignFn : NDTFrame → Pose → NDTFrame → Pose)
    (mkQuat : ℚ → Quat) (p : Params) (scan : Scan) (s : NodeState) :
    NodeState :=
  let cf := s.current_frame.loadLaser scan.ranges scan.angleMin scan.angleInc
    scan.rangeMax
  let cur := if s.first_iteration then s.previous_pose
    else alignFn s.ref_frame s.previous_pose cf
  let refF := s.ref_frame.update cur cf
  let gm0 := if s.iter_num = 0 then s.global_map.update cur cf else s.global_map
  let gm := gm0.addPose scan.stamp cur
  let pub : PoseMsg := ⟨scan.stamp, "map", cur.x, cur.y, 0, mkQuat cur.th⟩
  { first_iteration := false
    iter_num := (s.iter_num + 1) % saveEachNumIters
    number_of_iters := s.number_of_iters + 1
    previous_pose := cur
    current_pose := cur
    initial_pose := s.initial_pose
    current_frame :=
      NDTFrame.init s.initial_pose (p.frameSize % 65536) (p.frameSize % 65536)
        (p.frameSize : ℚ) false
    ref_frame := refF
    global_map := gm
    current_pub_pose := pub }

/-- The transform broadcast by the publish loop
(`tf::StampedTransform(transform_, now, "map", "laser")`). -/
structure TFOut where
  parent : String
  child : String
  ox : ℚ
  oy : ℚ
  oz : ℚ
  rot : Quat
deriving DecidableEq, Repr

/-- One iteration of the publish loop (lines 375–383): `ros::spinOnce()`
runs the queued scan callbacks in this thread, in arrival order
(`pending`); then the loop publishes `current_pub_pose` and broadcasts
the map→laser transform built from its position and orientation. -/
def publishIter (alignFn : NDTFrame → Pose → NDTFrame → Pose)
    (mkQuat : ℚ → Quat) (p : Params) (pending : List Scan) (s : NodeState) :
    NodeState × PoseMsg × TFOut :=
  let s1 := pending.foldl (fun st sc => scan_mathcher alignFn mkQuat p sc st) s
  (s1, s1.current_pub_pose,
    ⟨"map", "laser", s1.current_pub_pose.px, s1.current_pub_pose.py, 0,
      s1.current_pub_pose.ori⟩)

/-- Modelled from the spec: the PSO Alignment Engine behind
`NDTFrame::align` (not under `src/`).  One run of the engine evaluates a
sequence of candidate poses, determined by the random particle
initialization and the inertia/cognitive/social velocity updates; that
sequence, each candidate already composed with the previous pose, is
abstracted as the list `visited`.  Per spec §4.3 the swarm-wide best
starts at the zero-offset (identity) candidate — that is, at the
previous pose itself — each evaluated candidate replaces the best only
when it strictly improves the score, and after all iterations the best
is returned; if no candidate ever improves on the identity candidate
the engine thereby returns the previous pose unchanged. -/
def psoAlign (score : Pose → ℚ) (prev : Pose) (visited : List Pose) : Pose :=
  visited.foldl (fun best c => if score best < score c then c else best) prev

/-- The scheduling of scan callbacks around the node: scans arrive into
a FIFO callback queue; a cycle starts by dequeuing the head and taking
`matcher_mutex` (`matcher_mutex.lock()` at line 97 is the first
statement of `scan_mathcher`, so the lock is held from the start of the
cycle); a running cycle completes by applying the whole `scan_mathcher`
body to the node state — acceptance and fusion of the new pose included
— and only then releases the mutex (`matcher_mutex.unlock()` at line
182 is the last statement).  `running` holds the cycles between lock
and unlock, `processed` the completed ones in completion order,
`arrived` the number of scans that ever arrived (scan `i` is the `i`-th
arrival). -/
structure MatcherSys where
  queue : List ℕ
  running : List ℕ
  processed : List ℕ
  arrived : ℕ
  locked : Bool
  node : NodeState
deriving DecidableEq, Repr

/-- The system right after `main`'s set-up: nothing has arrived and the
mutex is free. -/
def MatcherSys.boot (ns : NodeState) : MatcherSys := ⟨[], [], [], 0, false, ns⟩

/-- One interleaving step of the system: a new scan arrives; a cycle
starts (enabled only when the mutex is free, and takes it); a running
cycle finishes (performing the locked `scan_mathcher` body on the node
state and releasing the mutex). -/
inductive SysStep (alignFn : NDTFrame → Pose → NDTFrame → Pose)
    (mkQuat : ℚ → Quat) (p : Params) (scans : ℕ → Scan) :
    MatcherSys → MatcherSys → Prop
  | arrive (s : MatcherSys) :
      SysStep alignFn mkQuat p scans s
        { s with queue := s.queue ++ [s.arrived], arrived := s.arrived + 1 }
  | start (s : MatcherSys) (i : ℕ) (rest : List ℕ) (hl : s.locked = false)
      (hq : s.queue = i :: rest) :
      SysStep alignFn mkQuat p scans s
        { s with queue := rest, running := s.running ++ [i], locked := true }
  | finish (s : MatcherSys) (i : ℕ) (rest : List ℕ)
      (hr : s.running = i :: rest) :
      SysStep alignFn mkQuat p scans s
        { s with
          running := rest
          processed := s.processed ++ [i]
          locked := false
          node := scan_mathcher alignFn mkQuat p (scans i) s.node }

/-- The serialization invariant of the matcher system: at most one cycle
is in flight; when the mutex is free no cycle is in flight; completed,
in-flight and queued cycles together are exactly the arrivals in arrival
order; and the node state is the sequential composition of the completed
cycles, applied in that order to the start-up state. -/
def SysInv (alignFn : NDTFrame → Pose → NDTFrame → Pose) (mkQuat : ℚ → Quat)
    (p : Params) (scans : ℕ → Scan) (ns : NodeState) (s : MatcherSys) : Prop :=
  s.running.length ≤ 1 ∧
  (s.locked = false → s.running = []) ∧
  s.processed ++ s.running ++ s.queue = List.range s.arrived ∧
  s.node = s.processed.foldl
    (fun st i => scan_mathcher alignFn mkQuat p (scans i) st) ns

/-- The return type of the node's scan-submission entry point: the
`scan_mathcher` callback is declared `void`, so it returns nothing to
its caller. -/
def ScanMathcherRet : Type := Unit

/-- A trivial alignment engine used for concrete evaluations: it returns
the previous pose. -/
def testAlign : NDTFrame → Pose → NDTFrame → Pose := fun _ prev _ => prev

/-- A fixed yaw-to-quaternion map used for concrete evaluations. -/
def testQuat : ℚ → Quat := fun th => ⟨0, 0, th, 1⟩

/-- A small test scan: the sample `0` is discarded as non-positive and
`30` as not below `range_max = 20`; only the range `1` survives. -/
def testScan : Scan := ⟨[1, 0, 30], 0, 1/100, 20, 5⟩

/-- The local frame loaded by the first test cycle. -/
def testCF0 : NDTFrame :=
  (mainInit defaultParams).current_frame.loadLaser testScan.ranges
    testScan.angleMin testScan.angleInc testScan.rangeMax

/-- The node state after the first cycle, starting from the default
start-up state. -/
def testState1 : NodeState :=
  scan_mathcher testAlign testQuat defaultParams testScan
    (mainInit defaultParams)

/-- The local frame loaded by the second test cycle. -/
def testCF : NDTFrame :=
  testState1.current_frame.loadLaser testScan.ranges testScan.angleMin
    testScan.angleInc testScan.rangeMax

/-- The pose accepted by the second test cycle. -/
def testAcc : Pose := testAlign testState1.ref_frame testState1.previous_pose testCF

/-- Parameters with a non-zero sensor mounting transform. -/
def paramsWithTrans : Params := ⟨100, 1/2, 25, ⟨1, 0, 0⟩⟩

/-- Folding the strict-improvement best-tracking step never decreases
the score of the held best. -/
theorem foldlBest_le (score : Pose → ℚ) (l : List Pose) :
    ∀ b : Pose, score b ≤
      score (l.foldl (fun best c => if score best < score c then c else best) b) := by
  induction l with
  | nil => intro b; exact le_refl _
  | cons c t ih =>
    intro b
    refine le_trans ?_ (ih (if score b < score c then c else b))
    by_cases h : score b < score c
    · rw [if_pos h]; exact h.le
    · rw [if_neg h]

/-- If no element of the list strictly improves on the initial best, the
fold returns the initial best unchanged. -/
theorem foldlBest_stays (score : Pose → ℚ) :
    ∀ (l : List Pose) (b : Pose), (∀ c ∈ l, score c ≤ score b) →
      l.foldl (fun best c => if score best < score c then c else best) b = b := by
  intro l
  induction l with
  | nil => intro b _; rfl
  | cons c t ih =>
    intro b h
    have hc : ¬ score b < score c := not_lt.mpr (h c (List.mem_cons_self c t))
    simp only [List.foldl_cons, if_neg hc]
    exact ih b fun d hd => h d (List.mem_cons_of_mem c hd)

/-- C1: for every alignment call, the pose returned by the engine scores
at least as high as the previous pose (monotonic non-regression), and if
no evaluated candidate ever improves on the zero-offset (identity)
candidate the engine returns the previous pose unchanged — for every
scoring function and every sequence of candidates the swarm visits. -/
theorem align_no_regression (score : Pose → ℚ) (prev : Pose)
    (visited : List Pose) :
    score prev ≤ score (psoAlign score prev visited) ∧
    ((∀ c ∈ visited, score c ≤ score prev) →
      psoAlign score prev visited = prev) :=
  ⟨foldlBest_le score visited prev,
    fun h => foldlBest_stays score visited prev h⟩

/-- Concrete instance of `align_no_regression`: previous pose `(0,0,0)`
under the score `q.x`, one visited candidate `(-1,2,0)` that does not
improve on it; the engine keeps the previous pose. -/
theorem align_no_regression_witness :
    (fun q : Pose => q.x) ⟨0, 0, 0⟩ ≤
      (fun q : Pose => q.x)
        (psoAlign (fun q : Pose => q.x) ⟨0, 0, 0⟩ [⟨-1, 2, 0⟩]) ∧
    psoAlign (fun q : Pose => q.x) ⟨0, 0, 0⟩ [⟨-1, 2, 0⟩] = ⟨0, 0, 0⟩ := by
  have h := align_no_regression (fun q : Pose => q.x) ⟨0, 0, 0⟩ [⟨-1, 2, 0⟩]
  exact ⟨h.1, h.2 (by decide)⟩

/-- The start-up system satisfies the serialization invariant. -/
theorem sysInv_boot (alignFn : NDTFrame → Pose → NDTFrame → Pose)
    (mkQuat : ℚ → Quat) (p : Params) (scans : ℕ → Scan) (ns : NodeState) :
    SysInv alignFn mkQuat p scans ns (MatcherSys.boot ns) := by
  refine ⟨by simp [MatcherSys.boot], fun _ => rfl, by simp [MatcherSys.boot], rfl⟩

/-- Every step of the matcher system preserves the serialization
invariant. -/
theorem sysInv_step (alignFn : NDTFrame → Pose → NDTFrame → Pose)
    (mkQuat : ℚ → Quat) (p : Params) (scans : ℕ → Scan) (ns : NodeState)
    (s s' : MatcherSys) (hinv : SysInv alignFn mkQuat p scans ns s)
    (hstep : SysStep alignFn mkQuat p scans s s') :
    SysInv alignFn mkQuat p scans ns s' := by
  obtain ⟨h1, h2, h3, h4⟩ := hinv
  cases hstep with
  | arrive =>
    refine ⟨h1, h2, ?_, h4⟩
    show s.processed ++ s.running ++ (s.queue ++ [s.arrived]) =
      List.range (s.arrived + 1)
    rw [List.range_succ, ← h3]
    simp [List.append_assoc]
  | start i rest hl hq =>
    have hre : s.running = [] := h2 hl
    refine ⟨by simp [hre], by intro hc; simp at hc, ?_, h4⟩
    show s.processed ++ (s.running ++ [i]) ++ rest = List.range s.arrived
    rw [← h3, hq, hre]
    simp
  | finish i rest hr =>
    have hl1 : (i :: rest).length ≤ 1 := hr ▸ h1
    have hrest : rest = [] := by
      simp only [List.length_cons] at hl1
      exact List.length_eq_zero.mp (by omega)
    refine ⟨by simp [hrest], fun _ => hrest, ?_, ?_⟩
    · show s.processed ++ [i] ++ rest ++ s.queue = List.range s.arrived
      rw [← h3, hr, hrest]
      simp
    · show scan_mathcher alignFn mkQuat p (scans i) s.node =
        (s.processed ++ [i]).foldl
          (fun st j => scan_mathcher alignFn mkQuat p (scans j) st) ns
      rw [List.foldl_append, ← h4]
      rfl

/-- C2: every reachable state of the matcher system — scan callbacks
dispatched from a FIFO queue, each cycle holding `matcher_mutex` from
its start until the new pose is accepted and fused — has at most one
cycle in flight, the completed/in-flight/queued cycles are exactly the
arrivals in arrival order (no scan is processed out of order), and the
shared node state (the reference frame included) is the sequential
composition of the completed cycles, so it is mutated by at most one
cycle at a time. -/
theorem matcher_cycles_serialized (alignFn : NDTFrame → Pose → NDTFrame → Pose)
    (mkQuat : ℚ → Quat) (p : Params) (scans : ℕ → Scan) (ns : NodeState)
    (s : MatcherSys)
    (h : Relation.ReflTransGen (SysStep alignFn mkQuat p scans)
      (MatcherSys.boot ns) s) :
    s.running.length ≤ 1 ∧
    s.processed ++ s.running ++ s.queue = List.range s.arrived ∧
    s.node = s.processed.foldl
      (fun st i => scan_mathcher alignFn mkQuat p (scans i) st) ns := by
  have hinv : SysInv alignFn mkQuat p scans ns s := by
    induction h with
    | refl => exact sysInv_boot alignFn mkQuat p scans ns
    | tail _ hstep ih => exact sysInv_step alignFn mkQuat p scans ns _ _ ih hstep
  exact ⟨hinv.1, hinv.2.2.1, hinv.2.2.2⟩

/-- Concrete instance of `matcher_cycles_serialized` at the start-up
system, reachable by the empty run. -/
theorem matcher_cycles_serialized_witness :
    (MatcherSys.boot (mainInit defaultParams)).running.length ≤ 1 ∧
    (MatcherSys.boot (mainInit defaultParams)).processed ++
        (MatcherSys.boot (mainInit defaultParams)).running ++
        (MatcherSys.boot (mainInit defaultParams)).queue =
      List.range (MatcherSys.boot (mainInit defaultParams)).arrived ∧
    (MatcherSys.boot (mainInit defaultParams)).node =
      (MatcherSys.boot (mainInit defaultParams)).processed.foldl
        (fun st i => scan_mathcher testAlign testQuat defaultParams
          ((fun _ => testScan) i) st) (mainInit defaultParams) :=
  matcher_cycles_serialized testAlign testQuat defaultParams (fun _ => testScan)
    (mainInit defaultParams) (MatcherSys.boot (mainInit defaultParams))
    Relation.ReflTransGen.refl

/-- C3: on every non-first cycle, the accepted pose is computed by
aligning the freshly loaded local frame against the reference frame
starting from the previous pose; the previous (and current) pose is then
set to that accepted pose, and the reference frame is fused with the
local frame's point set at exactly that accepted pose. -/
theorem cycle_align_update_fuse_order
    (alignFn : NDTFrame → Pose → NDTFrame → Pose) (mkQuat : ℚ → Quat)
    (p : Params) (scan : Scan) (s : NodeState) (cf : NDTFrame) (acc : Pose)
    (hfi : s.first_iteration = false)
    (hcf : cf = s.current_frame.loadLaser scan.ranges scan.angleMin
      scan.angleInc scan.rangeMax)
    (hacc : acc = alignFn s.ref_frame s.previous_pose cf) :
    (scan_mathcher alignFn mkQuat p scan s).previous_pose = acc ∧
    (scan_mathcher alignFn mkQuat p scan s).current_pose = acc ∧
    (scan_mathcher alignFn mkQuat p scan s).ref_frame =
      s.ref_frame.update acc cf ∧
    (scan_mathcher alignFn mkQuat p scan s).ref_frame.fused =
      s.ref_frame.fused ++ [(acc, cf.points)] := by
  subst hcf hacc
  simp [scan_mathcher, hfi, NDTFrame.update]

/-- Concrete instance of `cycle_align_update_fuse_order` at the second
test cycle. -/
theorem cycle_align_update_fuse_order_witness :
    (scan_mathcher testAlign testQuat defaultParams testScan testState1).previous_pose
        = testAcc ∧
    (scan_mathcher testAlign testQuat defaultParams testScan testState1).current_pose
        = testAcc ∧
    (scan_mathcher testAlign testQuat defaultParams testScan testState1).ref_frame
        = testState1.ref_frame.update testAcc testCF ∧
    (scan_mathcher testAlign testQuat defaultParams testScan testState1).ref_frame.fused
        = testState1.ref_frame.fused ++ [(testAcc, testCF.points)] :=
  cycle_align_update_fuse_order testAlign testQuat defaultParams testScan
    testState1 testCF testAcc rfl rfl rfl

/-- C4 counterexample: on the second cycle (cycle counter `iter_num = 1`)
the reference frame is fused with the local frame, but the map
accumulator `global_map` receives no fusion record at all — it is fused
only every `SAVE_DATA_TO_FILE_EACH_NUM_ITERS`-th cycle, not on every
accepted scan. -/
theorem global_map_subsampled_cex :
    (scan_mathcher testAlign testQuat defaultParams testScan testState1).global_map.fused
        = testState1.global_map.fused ∧
    (scan_mathcher testAlign testQuat defaultParams testScan testState1).ref_frame.fused.length
        = testState1.ref_frame.fused.length + 1 ∧
    testState1.iter_num = 1 := by
  exact ⟨rfl, rfl, rfl⟩

/-- C4 amended: on every cycle the local frame is fused into the
reference frame and a trajectory record is appended to the map
accumulator, but the map accumulator is fused with the local frame's
points only when the cycle counter `iter_num` is zero, i.e. on every
`SAVE_DATA_TO_FILE_EACH_NUM_ITERS`-th (10th) cycle starting with the
first. -/
theorem cycle_fusion_targets
    (alignFn : NDTFrame → Pose → NDTFrame → Pose) (mkQuat : ℚ → Quat)
    (p : Params) (scan : Scan) (s : NodeState) (cf : NDTFrame) (acc : Pose)
    (hcf : cf = s.current_frame.loadLaser scan.ranges scan.angleMin
      scan.angleInc scan.rangeMax)
    (hacc : acc = if s.first_iteration then s.previous_pose
      else alignFn s.ref_frame s.previous_pose cf) :
    (scan_mathcher alignFn mkQuat p scan s).ref_frame.fused =
      s.ref_frame.fused ++ [(acc, cf.points)] ∧
    (scan_mathcher alignFn mkQuat p scan s).global_map.trajectory =
      s.global_map.trajectory ++ [(scan.stamp, acc)] ∧
    (scan_mathcher alignFn mkQuat p scan s).global_map.fused =
      (if s.iter_num = 0 then s.global_map.fused ++ [(acc, cf.points)]
        else s.global_map.fused) := by
  subst hcf hacc
  by_cases hi : s.iter_num = 0 <;>
    simp [scan_mathcher, NDTFrame.update, NDTFrame.addPose, hi]

/-- Concrete instance of `cycle_fusion_targets` at the second test
cycle. -/
theorem cycle_fusion_targets_witness :
    (scan_mathcher testAlign testQuat defaultParams testScan testState1).ref_frame.fused
        = testState1.ref_frame.fused ++ [(testAcc, testCF.points)] ∧
    (scan_mathcher testAlign testQuat defaultParams testScan testState1).global_map.trajectory
        = testState1.global_map.trajectory ++ [(testScan.stamp, testAcc)] ∧
    (scan_mathcher testAlign testQuat defaultParams testScan testState1).global_map.fused
        = (if testState1.iter_num = 0
            then testState1.global_map.fused ++ [(testAcc, testCF.points)]
            else testState1.global_map.fused) :=
  cycle_fusion_targets testAlign testQuat defaultParams testScan testState1
    testCF testAcc rfl rfl

/-- C5: evaluation at the failing input.  With the default parameters
(`cell_side = 0.5`, `frame_size = 100`) the start-up local frame is
built with cell side `1/2`, but the local frame reallocated at the end
of the first cycle is built with cell side `100`: lines 165–167 pass
`param_frame_size` as the fourth `NDTFrame` constructor argument (the
cell side) where the start-up construction at lines 287–289 passes
`param_cell_side`. -/
theorem realloc_cell_side_eval :
    (mainInit defaultParams).current_frame.cellSide = 1/2 ∧
    testState1.current_frame.cellSide = 100 ∧
    testState1.current_frame.cellSide ≠ (mainInit defaultParams).current_frame.cellSide := by
  refine ⟨rfl, rfl, ?_⟩
  show ((100 : ℕ) : ℚ) ≠ 1/2
  norm_num

/-- C6 counterexample: with mounting transform `(1, 0, 0)` the start-up
local frame carries it (via `setTrans` in `main`), but the local frame
rebuilt at the end of the first cycle does not — `setTrans` is never
called after a reallocation, so the rebuilt frame's transform is zero. -/
theorem realloc_trans_lost_cex :
    (mainInit paramsWithTrans).current_frame.trans = ⟨1, 0, 0⟩ ∧
    (scan_mathcher testAlign testQuat paramsWithTrans testScan
        (mainInit paramsWithTrans)).current_frame.trans ≠ ⟨1, 0, 0⟩ := by
  refine ⟨rfl, ?_⟩
  decide

/-- C6 amended: the one-time start-up origin offset is applied to the
local frame built in `main` before any point insertion (its point set is
still empty), but every local frame reallocated at the end of a cycle is
constructed with a zero mounting transform, so only the first scan's
points are inserted under the start-up offset. -/
theorem local_frame_trans_only_first
    (alignFn : NDTFrame → Pose → NDTFrame → Pose) (mkQuat : ℚ → Quat)
    (p : Params) (scan : Scan) (s : NodeState) :
    (mainInit p).current_frame.trans = p.initialTrans ∧
    (mainInit p).current_frame.points = [] ∧
    (scan_mathcher alignFn mkQuat p scan s).current_frame.trans = Pose.zero :=
  ⟨rfl, rfl, rfl⟩

/-- C7 counterexample: the scan-submission entry point of the node is
the `void` callback `scan_mathcher`; its return type cannot be (put in
bijection with) the claimed pair of an accepted pose and a match score. -/
theorem callback_returns_no_pair_cex :
    ¬ Nonempty (ScanMathcherRet ≃ Pose × ℚ) := by
  rintro ⟨e⟩
  have h : ((⟨0, 0, 0⟩ : Pose), (0 : ℚ)) = ((⟨1, 0, 0⟩ : Pose), (0 : ℚ)) :=
    e.symm.injective rfl
  have h1 := congrArg (fun t : Pose × ℚ => t.1.x) h
  norm_num at h1

/-- C7 amended: one invocation of the entry point returns no value; the
accepted pose is exposed to the rest of the node through the shared
published-pose message (position from the accepted pose, orientation
from its heading), and no match score is computed or returned. -/
theorem cycle_exposes_pose_no_score
    (alignFn : NDTFrame → Pose → NDTFrame → Pose) (mkQuat : ℚ → Quat)
    (p : Params) (scan : Scan) (s : NodeState) :
    (scan_mathcher alignFn mkQuat p scan s).current_pub_pose.px =
      (scan_mathcher alignFn mkQuat p scan s).current_pose.x ∧
    (scan_mathcher alignFn mkQuat p scan s).current_pub_pose.py =
      (scan_mathcher alignFn mkQuat p scan s).current_pose.y ∧
    (scan_mathcher alignFn mkQuat p scan s).current_pub_pose.pz = 0 ∧
    (scan_mathcher alignFn mkQuat p scan s).current_pub_pose.ori =
      mkQuat (scan_mathcher alignFn mkQuat p scan s).current_pose.th ∧
    (scan_mathcher alignFn mkQuat p scan s).current_pub_pose.stamp = scan.stamp :=
  ⟨rfl, rfl, rfl, rfl, rfl⟩

/-- C8 counterexample: a publish-loop iteration with one pending scan
runs the scan callback through `ros::spinOnce()` and thereby mutates the
reference frame (and the rest of the node state): the publish loop is
not read-only with respect to the frames. -/
theorem publish_iter_mutates_cex :
    (publishIter testAlign testQuat defaultParams [testScan]
        (mainInit defaultParams)).1.ref_frame
      ≠ (mainInit defaultParams).ref_frame := by
  intro h
  have h2 : (publishIter testAlign testQuat defaultParams [testScan]
      (mainInit defaultParams)).1.ref_frame.fused.length = 1 := rfl
  rw [h] at h2
  simp [mainInit, NDTFrame.init] at h2

/-- C8 amended: the publishing statements themselves are read-only — an
iteration with no pending scan leaves the entire node state (current
pose, previous pose, reference frame, local frame, map accumulator)
unchanged and emits the last written pose message together with the
map→laser transform built from it; but each iteration begins with
`ros::spinOnce()`, which executes pending scan callbacks in the same
thread and then mutates the state, and the read of `current_pub_pose` is
performed without holding any lock. -/
theorem publish_iter_idle_readonly
    (alignFn : NDTFrame → Pose → NDTFrame → Pose) (mkQuat : ℚ → Quat)
    (p : Params) (s : NodeState) :
    (publishIter alignFn mkQuat p [] s).1 = s ∧
    (publishIter alignFn mkQuat p [] s).2.1 = s.current_pub_pose ∧
    (publishIter alignFn mkQuat p [] s).2.2 =
      ⟨"map", "laser", s.current_pub_pose.px, s.current_pub_pose.py, 0,
        s.current_pub_pose.ori⟩ :=
  ⟨rfl, rfl, rfl⟩

/-- C9: on the very first submitted scan no alignment is performed — the
accepted pose equals the initial (previous) pose, whatever the alignment
engine — and both the reference frame and the map accumulator are fused
with the first scan's local frame at exactly that pose. -/
theorem first_scan_identity_fuse
    (alignFn : NDTFrame → Pose → NDTFrame → Pose) (mkQuat : ℚ → Quat)
    (p : Params) (scan : Scan) (s : NodeState) (cf : NDTFrame)
    (hfi : s.first_iteration = true) (hit : s.iter_num = 0)
    (hcf : cf = s.current_frame.loadLaser scan.ranges scan.angleMin
      scan.angleInc scan.rangeMax) :
    (scan_mathcher alignFn mkQuat p scan s).current_pose = s.previous_pose ∧
    (scan_mathcher alignFn mkQuat p scan s).previous_pose = s.previous_pose ∧
    (scan_mathcher alignFn mkQuat p scan s).ref_frame =
      s.ref_frame.update s.previous_pose cf ∧
    (scan_mathcher alignFn mkQuat p scan s).global_map.fused =
      s.global_map.fused ++ [(s.previous_pose, cf.points)] := by
  subst hcf
  simp [scan_mathcher, hfi, hit, NDTFrame.update, NDTFrame.addPose]

/-- Concrete instance of `first_scan_identity_fuse` at the default
start-up state. -/
theorem first_scan_identity_fuse_witness :
    (scan_mathcher testAlign testQuat defaultParams testScan
        (mainInit defaultParams)).current_pose
      = (mainInit defaultParams).previous_pose ∧
    (scan_mathcher testAlign testQuat defaultParams testScan
        (mainInit defaultParams)).previous_pose
      = (mainInit defaultParams).previous_pose ∧
    (scan_mathcher testAlign testQuat defaultParams testScan
        (mainInit defaultParams)).ref_frame
      = (mainInit defaultParams).ref_frame.update
          (mainInit defaultParams).previous_pose testCF0 ∧
    (scan_mathcher testAlign testQuat defaultParams testScan
        (mainInit defaultParams)).global_map.fused
      = (mainInit defaultParams).global_map.fused ++
          [((mainInit defaultParams).previous_pose, testCF0.points)] :=
  first_scan_identity_fuse testAlign testQuat defaultParams testScan
    (mainInit defaultParams) testCF0 rfl rfl rfl

/-- C10: before the first scan has been processed, every publish-loop
iteration (no scan pending) publishes the value-initialized pose
message — position `(0, 0, 0)`, the all-zero orientation quaternion
(whose squared norm is `0`, not `1`, hence not a unit quaternion) and an
empty frame id — and broadcasts the map→laser transform with the same
zero origin and all-zero rotation. -/
theorem publish_default_until_first_scan
    (alignFn : NDTFrame → Pose → NDTFrame → Pose) (mkQuat : ℚ → Quat)
    (p : Params) (n : ℕ) :
    (publishIter alignFn mkQuat p []
        ((fun st => (publishIter alignFn mkQuat p [] st).1)^[n]
          (mainInit p))).2.1 = defaultPoseMsg ∧
    (publishIter alignFn mkQuat p []
        ((fun st => (publishIter alignFn mkQuat p [] st).1)^[n]
          (mainInit p))).2.2 = ⟨"map", "laser", 0, 0, 0, ⟨0, 0, 0, 0⟩⟩ ∧
    defaultPoseMsg.px = 0 ∧ defaultPoseMsg.py = 0 ∧ defaultPoseMsg.pz = 0 ∧
    defaultPoseMsg.frame_id = "" ∧ defaultPoseMsg.ori = ⟨0, 0, 0, 0⟩ ∧
    defaultPoseMsg.ori.qx ^ 2 + defaultPoseMsg.ori.qy ^ 2 +
        defaultPoseMsg.ori.qz ^ 2 + defaultPoseMsg.ori.qw ^ 2 ≠ 1 := by
  have hfix : (fun st => (publishIter alignFn mkQuat p [] st).1) (mainInit p)
      = mainInit p := rfl
  rw [Function.iterate_fixed hfix n]
  refine ⟨rfl, rfl, rfl, rfl, rfl, rfl, rfl, by norm_num [defaultPoseMsg]⟩
